import Mathlib

/-!
# Verification of pycommence against its specification

Shallow embedding of the pycommence repository (a Python wrapper around the
Commence CRM COM automation interface) and proofs of the specification claims.

The embedding models:
* `pycmc_types.py`: `CmcFilter` (with `filter_str2`), `FilterArray` (with
  `from_filters`), `ConditionType`;
* `api/cmc_csr.py`: `Csr.filter_by_field`, `Csr.get_record`,
  `Csr.delete_record`, `Csr.add_record`, `get_csr`;
* `api/db_api.py`: `CmcConnection.__new__` / `__init__` (process-wide
  connection cache, COM `Dispatch`, HRESULT translation);
* `wrapper/new.py`: `CmcAPI.__new__` and `CmcConnection.__init__` /
  `get_cursor`;
* `cursor_v2.py`: `CursorAPI.temporary_filter`, `clear_filter`,
  `clear_all_filters`, `_read_rows`.

Python exceptions are modelled by the inductive `PyExc`; fallible code returns
`Except PyExc _`.  Python `dict`s with insertion order are modelled by
association lists with unique keys.  COM behaviour (what `Dispatch`,
`GetCursor` and row sets return) is external to the repository, so it enters
the model as explicit parameters.
-/

namespace PyCommence

/-- A Python exception value, as far as the claims need to distinguish them:
`com_error` (pywin32) carries an HRESULT and its rendered text; `CmcError` is
the domain exception with a message; `AttributeError` carries the missing
attribute name; `ValueError` carries a message. -/
inductive PyExc where
  | comError (hresult : Int) (text : String)
  | cmcError (msg : String)
  | attributeError (attr : String)
  | valueError (msg : String)
  deriving Repr, DecidableEq

/-- Predicate: `True` exactly for the domain exception `CmcError`. -/
def PyExc.isCmcError : PyExc → Bool
  | .cmcError _ => true
  | _ => false

/-! ## `pycmc_types.py` -/

/-- Model of `ConditionType(StrEnum)` from `pycmc_types.py`.  A `StrEnum` member
interpolates as its value string. -/
inductive ConditionType where
  | EQUAL | CONTAIN | AFTER | BETWEEN | BEFORE | NOT_EQUAL | NOT_CONTAIN | ON
  deriving Repr, DecidableEq

/-- The value string of each `ConditionType` member. -/
def ConditionType.str : ConditionType → String
  | .EQUAL => "Equal To"
  | .CONTAIN => "Contains"
  | .AFTER => "After"
  | .BETWEEN => "Is Between"
  | .BEFORE => "Before"
  | .NOT_EQUAL => "Not Equal To"
  | .NOT_CONTAIN => "Not Contains"
  | .ON => "On"

/-- Model of `CmcFilter` from `pycmc_types.py`: column name, filter type tag
(`Literal['F', 'CTI', 'CTCF', 'CTCTI']`, modelled as its string), value,
condition and negation flag (`Literal['Not', '']`, modelled as its string). -/
structure CmcFilter where
  cmc_col : String
  f_type : String := "F"
  value : String := ""
  condition : ConditionType := .EQUAL
  not_flag : String := ""
  deriving Repr, DecidableEq

/-- Model of `CmcFilter.filter_str2` from `pycmc_types.py`:
`f'[ViewFilter({slot}, {self.f_type}, {self.not_flag}, {self.cmc_col}, `
`{self.condition}{f', {self.value}' if self.value else ''})]'`.
An empty Python string is falsy, so the `, value` part appears exactly when
`value` is non-empty. -/
def CmcFilter.filter_str2 (self : CmcFilter) (slot : Int) : String :=
  "[ViewFilter(" ++ toString slot ++ ", " ++ self.f_type ++ ", " ++
    self.not_flag ++ ", " ++ self.cmc_col ++ ", " ++ self.condition.str ++
    (if self.value ≠ "" then ", " ++ self.value else "") ++ ")]"

/-- Model of `FilterArray` from `pycmc_types.py`: `filters: dict[int, CmcFilter]`,
an insertion-ordered dict modelled as an association list. -/
structure FilterArray where
  filters : List (Nat × CmcFilter) := []
  deriving Repr, DecidableEq

/-- Model of `FilterArray.from_filters` from `pycmc_types.py`:
`cls(filters={i: fil for i, fil in enumerate(list(filters), 1)})` —
the i-th given filter (counting from 1) goes to slot i. -/
def FilterArray.from_filters (filters : List CmcFilter) : FilterArray :=
  ⟨filters.enum.map fun p => (p.1 + 1, p.2)⟩

/-! ## `api/cmc_csr.py` : the `Csr` wrapper -/

/-- The filter string `Csr.filter_by_field` passes to `set_filter`:
`f'[ViewFilter({fslot}, F,, {field_name}, {condition}{val_cond})]'` where
`val_cond = f', "{value}"' if value else ''`. -/
def filter_by_field_str (field_name condition value : String)
    (fslot : Int) : String :=
  "[ViewFilter(" ++ toString fslot ++ ", F,, " ++ field_name ++ ", " ++
    condition ++
    (if value ≠ "" then ", \"" ++ value ++ "\"" else "") ++ ")]"

/-- A row of a Commence row set, as returned to Python: a field-name to value
dict, modelled as an association list. -/
def RowDict := List (String × String)
  deriving Repr, DecidableEq

/-- Model of `Csr.get_record` from `cmc_csr.py`, after the name filter has been
applied: given the records the filtered cursor returns, raise
`CmcError(f'No record found for {record_name}')` when there are none, raise
`CmcError(f'Expected 1 record, got {len(records)}')` when there are more than
one, and return `records[0]` otherwise. -/
def get_record (record_name : String) (records : List RowDict) :
    Except PyExc RowDict :=
  match records with
  | [] => .error (.cmcError ("No record found for " ++ record_name))
  | r :: rest =>
    if (r :: rest).length > 1 then
      .error (.cmcError ("Expected 1 record, got " ++
        toString (r :: rest).length))
    else .ok r

/-- Model of `Csr.delete_record` from `cmc_csr.py`: the body (filter, delete row,
commit) runs inside `try: ... except Exception: ...`, so any exception is
swallowed and the function falls through, returning Python `None`; on success
it returns the commit result.  The body's outcome is the parameter. -/
def delete_record (body : Except PyExc Bool) : Except PyExc (Option Bool) :=
  match body with
  | .ok res => .ok (some res)
  | .error _ => .ok none

/-- Model of `Csr.add_record` from `cmc_csr.py`: the row-set add/commit body runs
inside `try: ... except com_error as e:`; a `com_error` with HRESULT
`-2147483617` becomes `CmcError('Record already exists')`, any other
`com_error` is re-raised as is (`raise`), and non-`com_error` exceptions are
not caught.  The body's outcome is the parameter. -/
def add_record (body : Except PyExc Bool) : Except PyExc Bool :=
  match body with
  | .ok res => .ok res
  | .error (.comError h t) =>
    if h = -2147483617 then .error (.cmcError "Record already exists")
    else .error (.comError h t)
  | .error e => .error e

/-- An abstract handle to a `Csr` object, for `get_csr`'s result. -/
def CsrHandle := Nat
  deriving Repr, DecidableEq

/-- Model of `get_csr` from `cmc_csr.py`: the body (connect, get cursor, build `Csr`)
runs inside `try: ... except Exception as e: logger.error(...)`, so any
exception is logged and swallowed and the function returns Python `None`. -/
def get_csr (body : Except PyExc CsrHandle) : Option CsrHandle :=
  match body with
  | .ok csr => some csr
  | .error _ => none

/-! ## Association-list dictionaries

Python `dict`s (insertion-ordered, unique keys) are modelled as association
lists; insertion appends at the end. -/

/-- Lookup `m.get(k)` on an association-list dict. -/
def dictGet {κ α : Type} [DecidableEq κ] (m : List (κ × α)) (k : κ) :
    Option α :=
  match m with
  | [] => none
  | (k', v) :: rest => if k' = k then some v else dictGet rest k

/-- Removal `m.pop(k, None)`: its effect on an association-list dict: remove the key. -/
def dictPop {κ α : Type} [DecidableEq κ] (m : List (κ × α)) (k : κ) :
    List (κ × α) :=
  m.filter fun p => p.1 ≠ k

/-! ## `api/db_api.py` : the cached connection (`CmcConnection` / `Cmc`)

`Cmc` subclasses `CmcConnection` and inherits the same class attribute
`connections`, so both construct through the same cache.  The COM `Dispatch`
call is modelled as always succeeding (its handle is irrelevant to the cache
claims); each call is recorded in `dispatched`.  Objects are identified by
allocation order (`nextObj`). -/

structure DbApiState where
  /-- Class attribute `CmcConnection.connections`: db name → cached object. -/
  connections : List (String × Nat)
  /-- Objects on which `__init__` has set `self._initialized`. -/
  initialized : List Nat
  /-- Names passed to COM `Dispatch`, in call order. -/
  dispatched : List String
  /-- Fresh-object allocator. -/
  nextObj : Nat
  deriving Repr, DecidableEq

/-- The process state before any connection is constructed. -/
def DbApiState.initial : DbApiState := ⟨[], [], [], 0⟩

/-- One evaluation of `CmcConnection(name)` (equally `Cmc(name)`) from
`db_api.py`: `__new__` returns the cached object when `name` is a key of
`connections`, otherwise caches a fresh object; `__init__` then runs on the
returned object and, unless `self._initialized` is already set, sets it and
calls `Dispatch(name)`. -/
def cmcConnection (s : DbApiState) (name : String) : Nat × DbApiState :=
  let (obj, s1) :=
    match dictGet s.connections name with
    | some obj => (obj, s)
    | none =>
      (s.nextObj,
       { s with
          connections := s.connections ++ [(name, s.nextObj)],
          nextObj := s.nextObj + 1 })
  if obj ∈ s1.initialized then (obj, s1)
  else
    (obj,
     { s1 with
        initialized := obj :: s1.initialized,
        dispatched := s1.dispatched ++ [name] })

/-- The state after a sequence of `CmcConnection(name)` constructions,
starting from a fresh process. -/
def runCmcConnection (names : List String) : DbApiState :=
  names.foldl (fun s n => (cmcConnection s n).2) DbApiState.initial

/-! ## `wrapper/new.py` : `CmcAPI` cache -/

structure CmcApiState where
  /-- Class attribute `CmcAPI.connections`: db name → cached connection. -/
  connections : List (String × Nat)
  /-- Names passed to COM `Dispatch`, in call order. -/
  dispatched : List String
  /-- Fresh-object allocator. -/
  nextObj : Nat
  deriving Repr, DecidableEq

/-- The process state before any `CmcAPI` is constructed. -/
def CmcApiState.initial : CmcApiState := ⟨[], [], 0⟩

/-- One evaluation of `CmcAPI(cmc_name)` from `wrapper/new.py` with the
default (empty) `cursor_names`, given this attempt's `Dispatch` outcome (a
handle, or a `com_error` as `(hresult, text)`): `__new__` returns the cached
connection if present; otherwise it constructs `CmcConnection(cmc_name, [])`
— whose `__init__` calls `Dispatch(cmc_name)`.  On success the connection is
cached; if `Dispatch` raises, `__init__`'s translation (`CmcError` for
HRESULT `-2147221005`, the raw `com_error` otherwise) propagates out of
`__new__` before the `cls.connections[cmc_name] = conn` assignment, so
nothing is cached even though `Dispatch` was called. -/
def cmcAPI (s : CmcApiState) (name : String)
    (dispatch : Except (Int × String) Nat) :
    Except PyExc Nat × CmcApiState :=
  match dictGet s.connections name with
  | some conn => (.ok conn, s)
  | none =>
    match dispatch with
    | .ok _ =>
      (.ok s.nextObj,
       { connections := s.connections ++ [(name, s.nextObj)],
         dispatched := s.dispatched ++ [name],
         nextObj := s.nextObj + 1 })
    | .error (hres, text) =>
      (.error
        (if hres = -2147221005 then
          .cmcError
            ("Db Name \"" ++ name ++ "\" does not exist - connection failed")
        else .comError hres text),
       { s with dispatched := s.dispatched ++ [name] })

/-- The state after a sequence of `CmcAPI(name)` construction attempts (each
with its `Dispatch` outcome), starting from a fresh process. -/
def runCmcAPI (ops : List (String × Except (Int × String) Nat)) :
    CmcApiState :=
  ops.foldl (fun s p => (cmcAPI s p.1 p.2).2) CmcApiState.initial

/-! ## `cursor_v2.py` : `CursorAPI` -/

/-- Modelled from the spec: `CursorType` is imported by `cursor_v2.py` from a
`pycmc_types` module revision absent from `src/`; per the spec's glossary a
cursor ranges over "a Commence category or saved view", and the wrapper enums
carry `CATEGORY` and `VIEW` members.  The claims use it only as an inert
`mode` field. -/
inductive CursorType where
  | CATEGORY | VIEW
  deriving Repr, DecidableEq

/-- Modelled from the spec: the rendered filter strings of a `FilterArray`
(property `filter_strs` of `filters.py`, absent from `src/`): each slot's
filter rendered in the `[ViewFilter(slot, type, notflag, column, condition,`
`value)]` DSL, i.e. `filter_str2` at its slot. -/
def FilterArray.filter_strs (fa : FilterArray) : List String :=
  fa.filters.map fun p => p.2.filter_str2 (Int.ofNat p.1)

/-- The observable state of a `CursorAPI` object from `cursor_v2.py` together
with its wrapped COM cursor.  `cursor_wrapper` is the Python attribute holding
the wrapper object (modelled by the object's identity, since the attribute is
never reassigned); `wrapperFilters` records the strings passed to the
wrapper's `set_filter`, and `seekPos` the effect of `seek_row` — both live in
the COM cursor behind `cursor_wrapper`, not in the `CursorAPI`'s own
attributes. -/
structure CursorV2State where
  cursor_wrapper : Nat
  wrapperFilters : List String
  seekPos : Int
  mode : CursorType
  csrname : String
  filter_array : Option FilterArray
  deriving Repr, DecidableEq

/-- Model of `self.cursor_wrapper.set_filter(s)`: the wrapped COM cursor receives one
more filter string. -/
def CursorV2State.set_filter (st : CursorV2State) (s : String) :
    CursorV2State :=
  { st with wrapperFilters := st.wrapperFilters ++ [s] }

/-- Model of `self.cursor_wrapper.seek_row(SeekBookmark.CURRENT, n)`: advance the COM
cursor by `n` rows from the current position. -/
def CursorV2State.seek (st : CursorV2State) (n : Nat) : CursorV2State :=
  { st with seekPos := st.seekPos + n }

/-- Model of `CursorAPI.filter_by_array` from `cursor_v2.py`: reads
`self.filter_array` and issues `set_filter` for each of its `filter_strs`
(when `self.filter_array` is `None`, the attribute access
`filter_array.filter_strs` raises `AttributeError`).  The claims exercise no
sorts and no filter logic, so those two conditional branches are no-ops
here. -/
def filter_by_array (st : CursorV2State) : Except PyExc CursorV2State :=
  match st.filter_array with
  | none => .error (.attributeError "filter_strs")
  | some fa => .ok (fa.filter_strs.foldl CursorV2State.set_filter st)

/-- Model of `CursorAPI.temporary_filter(fil_array)` from `cursor_v2.py`, run around a
`with`-block `body` (which returns its final state and, optionally, the
exception it raised): save `og_filter` (a copy of `self.filter_array`, `None`
if unset), assign `self.filter_array = fil_array`, apply it via
`filter_by_array`, run the block, and in `finally` restore
`self.filter_array = og_filter`; any exception propagates. -/
def temporary_filter (fil_array : Option FilterArray)
    (body : CursorV2State → CursorV2State × Option PyExc)
    (st : CursorV2State) : CursorV2State × Option PyExc :=
  let og := st.filter_array
  let st1 := { st with filter_array := fil_array }
  let (st2, exc) :=
    match filter_by_array st1 with
    | .error e => (st1, some e)
    | .ok st' => body st'
  ({ st2 with filter_array := og }, exc)

/-- Model of `CursorAPI.clear_filter(slot)` from `cursor_v2.py`: issue
`set_filter(f'[ViewFilter({slot},Clear)]')`, then
`self.filter_array.filters.pop(slot, None)` — which raises `AttributeError`
when `self.filter_array` is `None`. -/
def clear_filter (slot : Nat) (st : CursorV2State) :
    CursorV2State × Option PyExc :=
  let st1 := st.set_filter ("[ViewFilter(" ++ toString slot ++ ",Clear)]")
  match st1.filter_array with
  | none => (st1, some (.attributeError "filters"))
  | some fa =>
    ({ st1 with filter_array := some ⟨dictPop fa.filters slot⟩ }, none)

/-- Run `clear_filter` on each slot of the list in order, stopping at the
first exception (the list comprehension in `clear_all_filters`). -/
def clearSlots (slots : List Nat) (st : CursorV2State) :
    CursorV2State × Option PyExc :=
  match slots with
  | [] => (st, none)
  | i :: rest =>
    match clear_filter i st with
    | (st1, some e) => (st1, some e)
    | (st1, none) => clearSlots rest st1

/-- Model of `CursorAPI.clear_all_filters` from `cursor_v2.py`:
`[self.clear_filter(i) for i in range(1, 9)]` then
`self.filter_array = None`. -/
def clear_all_filters (st : CursorV2State) : CursorV2State × Option PyExc :=
  match clearSlots [1, 2, 3, 4, 5, 6, 7, 8] st with
  | (st1, some e) => (st1, some e)
  | (st1, none) => ({ st1 with filter_array := none }, none)

/-! ### `CursorAPI._read_rows` -/

/-- Modelled from the spec: `Pagination` is imported by `cursor_v2.py` from a
`pycmc_types` module revision absent from `src/`; `_read_rows` reads its
`offset` (rows to skip), `limit` (passed to `get_query_row_set`) and `end`
(row index after the page) fields, modelled as given data (`end` is `end_`,
since `end` is reserved in Lean). -/
structure Pagination where
  offset : Nat
  limit : Option Nat
  end_ : Nat
  deriving Repr, DecidableEq

/-- Modelled from the spec: `MoreAvailable` (from the same absent
`pycmc_types` revision) carries the count `n_more` of rows beyond the
page. -/
structure MoreAvailable where
  n_more : Int
  deriving Repr, DecidableEq

/-- One value yielded by the `_read_rows` generator: a row dict or a final
`MoreAvailable`. -/
inductive ReadItem where
  | row (r : RowDict)
  | more (m : MoreAvailable)
  deriving Repr, DecidableEq

/-- Predicate: `True` exactly on `MoreAvailable` items. -/
def ReadItem.isMore : ReadItem → Bool
  | .row _ => false
  | .more _ => true

/-- The cursor state at which `_read_rows` reads `self.row_count` and queries
its row set: after the seek by `pagination.offset` (when non-zero) and, when
a filter array is given, after `temporary_filter` has assigned and applied it
(`filter_by_array`). -/
def read_rows_midstate (filter_array : Option FilterArray)
    (pagination : Pagination) (st : CursorV2State) : CursorV2State :=
  let st1 := if pagination.offset ≠ 0 then st.seek pagination.offset else st
  match filter_array with
  | some fa =>
    (FilterArray.filter_strs fa).foldl CursorV2State.set_filter
      { st1 with filter_array := some fa }
  | none => st1

/-- Model of `CursorAPI._read_rows` from `cursor_v2.py` (at `with_category=False`),
with the external COM cursor behaviour passed in: `rowCountOf` gives the
wrapper's `row_count` in a given state and `queryRows` the row dicts that
`get_query_row_set(limit).rows()` yields there.  Steps, in source order: seek
by `pagination.offset` when non-zero; enter `temporary_filter(filter_array)`
when a filter array is given (else a null context); compute
`rows_left = self.row_count - pagination.end`; query a row set with
`pagination.limit` and yield its rows; yield `MoreAvailable(n_more=rows_left)`
when `rows_left > 0`; on exit restore `filter_array`.  Returns the yielded
items and the final state. -/
def read_rows (rowCountOf : CursorV2State → Nat)
    (queryRows : CursorV2State → Option Nat → List RowDict)
    (filter_array : Option FilterArray) (pagination : Pagination)
    (st : CursorV2State) : List ReadItem × CursorV2State :=
  let st1 := if pagination.offset ≠ 0 then st.seek pagination.offset else st
  let og := st1.filter_array
  let st2 := read_rows_midstate filter_array pagination st
  let rows_left : Int := (rowCountOf st2 : Int) - (pagination.end_ : Int)
  let rows := queryRows st2 pagination.limit
  let items := rows.map ReadItem.row ++
    (if rows_left > 0 then [ReadItem.more ⟨rows_left⟩] else [])
  let stFinal :=
    match filter_array with
    | some _ => { st2 with filter_array := og }
    | none => st2
  (items, stFinal)

/-! ## `wrapper/new.py` : `CmcConnection.__init__` and `get_cursor` -/

/-- The attribute state of a `wrapper/new.py` `CmcConnection` object:
`cursors` and `_cmc` (`cmc` here) are `none` while the attribute is not yet
assigned, so that reading it raises `AttributeError`. -/
structure NewConn where
  db_name : String
  cursors : Option (List (String × Nat))
  cmc : Option Nat
  deriving Repr, DecidableEq

/-- Model of `CmcConnection.get_cursor(name)` from `wrapper/new.py`, on the
`__init__` call path (default `mode=CATEGORY`, `flags=None`, `name` a
string): first `self.cursors.get(name)` — `AttributeError` if `self.cursors`
is unset; on a cache miss, after the flag/mode bookkeeping,
`self._cmc.GetCursor(...)` — `AttributeError` if `self._cmc` is unset,
otherwise a new cursor (`env name`) is stored under `name` and returned. -/
def NewConn.get_cursor (env : String → Nat) (self : NewConn) (name : String) :
    Except PyExc (Nat × NewConn) :=
  match self.cursors with
  | none => .error (.attributeError "cursors")
  | some cursors =>
    match dictGet cursors name with
    | some csr => .ok (csr, self)
    | none =>
      match self.cmc with
      | none => .error (.attributeError "_cmc")
      | some _ =>
        let csr := env name
        .ok (csr, { self with cursors := some (cursors ++ [(name, csr)]) })

/-- The dict comprehension
`{name: self.get_cursor(name) for name in cursor_names}` of
`CmcConnection.__init__` in `wrapper/new.py`: evaluate `get_cursor` for each
name in order, propagating the first exception. -/
def buildCursors (env : String → Nat) (self : NewConn) :
    List String → Except PyExc (List (String × Nat) × NewConn)
  | [] => .ok ([], self)
  | n :: rest =>
    match self.get_cursor env n with
    | .error e => .error e
    | .ok (csr, self1) =>
      match buildCursors env self1 rest with
      | .error e => .error e
      | .ok (d, self2) => .ok ((n, csr) :: d, self2)

/-- Model of `CmcConnection.__init__(db_name, cursor_names)` from `wrapper/new.py`:
assign `self.db_name`; build `self.cursors` by the dict comprehension — which
calls `self.get_cursor(name)` while neither `self.cursors` nor `self._cmc`
has been assigned yet; only then call `Dispatch(db_name)` (outcome given as
`dispatch`: a handle, or a `com_error` as `(hresult, text)`), translating
HRESULT `-2147221005` to
`CmcError(f'Db Name "{db_name}" does not exist - connection failed')` and
re-raising any other `com_error`. -/
def newConnInit (db_name : String) (cursor_names : List String)
    (env : String → Nat) (dispatch : Except (Int × String) Nat) :
    Except PyExc NewConn :=
  let self0 : NewConn := { db_name := db_name, cursors := none, cmc := none }
  match buildCursors env self0 cursor_names with
  | .error e => .error e
  | .ok (d, self1) =>
    let self2 := { self1 with cursors := some d }
    match dispatch with
    | .ok h => .ok { self2 with cmc := some h }
    | .error (hres, text) =>
      if hres = -2147221005 then
        .error (.cmcError
          ("Db Name \"" ++ db_name ++ "\" does not exist - connection failed"))
      else .error (.comError hres text)

/-- Model of `CmcConnection.__init__` from `api/db_api.py`, exception translation
only: `Dispatch(commence_instance)` raising a `com_error` with HRESULT
`-2147221005` becomes
`CmcError(f'Db Name "{commence_instance}" does not exist - connection`
` failed')`; any other `com_error` becomes
`CmcError(f'Error connecting to {commence_instance}. Is Commence`
` Running?\n{e}')`. -/
def cmcConnectionInitDb (commence_instance : String)
    (dispatch : Except (Int × String) Nat) : Except PyExc Nat :=
  match dispatch with
  | .ok h => .ok h
  | .error (hres, text) =>
    if hres = -2147221005 then
      .error (.cmcError
        ("Db Name \"" ++ commence_instance ++
          "\" does not exist - connection failed"))
    else
      .error (.cmcError
        ("Error connecting to " ++ commence_instance ++
          ". Is Commence Running?\n" ++ text))

/-! ## Cache invariants -/

/-- Invariant of the `db_api.py` process state: cached objects are below the
allocator; `Dispatch` was called once per cached name, in caching order; no
name and no object is cached twice; every cached object is initialized, and
every initialized object is below the allocator. -/
def DbInv (s : DbApiState) : Prop :=
  (∀ p ∈ s.connections, p.2 < s.nextObj) ∧
  s.dispatched = s.connections.map Prod.fst ∧
  (s.connections.map Prod.fst).Nodup ∧
  (s.connections.map Prod.snd).Nodup ∧
  (∀ p ∈ s.connections, p.2 ∈ s.initialized) ∧
  (∀ o ∈ s.initialized, o < s.nextObj)

/-- Invariant of the `wrapper/new.py` `CmcAPI` process state: cached objects
are below the allocator, and no name and no object is cached twice
(`dispatched` may list a name repeatedly — a failed `Dispatch` caches
nothing, so a retry dispatches again). -/
def ApiInv (s : CmcApiState) : Prop :=
  (∀ p ∈ s.connections, p.2 < s.nextObj) ∧
  (s.connections.map Prod.fst).Nodup ∧
  (s.connections.map Prod.snd).Nodup

/-!
# Helper lemmas
-/

theorem dictGet_eq_none_iff {κ α : Type} [DecidableEq κ]
    (m : List (κ × α)) (k : κ) :
    dictGet m k = none ↔ k ∉ m.map Prod.fst := by
  induction m with
  | nil => simp [dictGet]
  | cons p rest ih =>
    obtain ⟨k', v⟩ := p
    by_cases h : k' = k
    · subst h; simp [dictGet]
    · have h2 : ¬k = k' := fun hh => h hh.symm
      simp [dictGet, h, h2, ih]

theorem dictGet_append_single {κ α : Type} [DecidableEq κ]
    (m : List (κ × α)) (k : κ) (v : α) (h : dictGet m k = none) :
    dictGet (m ++ [(k, v)]) k = some v := by
  induction m with
  | nil => simp [dictGet]
  | cons p rest ih =>
    obtain ⟨k', v'⟩ := p
    by_cases hk : k' = k
    · simp [dictGet, hk] at h
    · simp only [dictGet, hk, if_false, List.cons_append] at h ⊢
      simp [dictGet, hk]
      exact ih h

theorem dictGet_mem {κ α : Type} [DecidableEq κ]
    (m : List (κ × α)) (k : κ) (v : α) (h : dictGet m k = some v) :
    (k, v) ∈ m := by
  induction m with
  | nil => simp [dictGet] at h
  | cons p rest ih =>
    obtain ⟨k', v'⟩ := p
    by_cases hk : k' = k
    · subst hk
      simp [dictGet] at h
      simp [h]
    · simp only [dictGet, hk, if_false] at h
      exact List.mem_cons_of_mem _ (ih h)

theorem mem_snd_nodup_inj {α β : Type} (l : List (α × β))
    (h : (l.map Prod.snd).Nodup) :
    ∀ p q, p ∈ l → q ∈ l → p.2 = q.2 → p = q := by
  induction l with
  | nil => intro p q hp; simp at hp
  | cons a t ih =>
    intro p q hp hq heq
    simp only [List.map_cons, List.nodup_cons] at h
    rcases List.mem_cons.mp hp with hp | hp <;>
      rcases List.mem_cons.mp hq with hq | hq
    · rw [hp, hq]
    · exfalso
      apply h.1
      have hm : q.2 ∈ List.map Prod.snd t := List.mem_map_of_mem Prod.snd hq
      rw [← hp, heq]
      exact hm
    · exfalso
      apply h.1
      have hm : p.2 ∈ List.map Prod.snd t := List.mem_map_of_mem Prod.snd hp
      rw [← hq, ← heq]
      exact hm
    · exact ih h.2 p q hp hq heq

theorem enumFrom_shift_map_fst {α : Type} (fs : List α) : ∀ n : Nat,
    ((List.enumFrom n fs).map fun p => (p.1 + 1, p.2)).map Prod.fst =
      List.range' (n + 1) fs.length := by
  induction fs with
  | nil => intro n; rfl
  | cons f t ih =>
    intro n
    simp only [List.enumFrom, List.map_cons, List.length_cons]
    rw [List.range'_succ]
    simp [ih (n + 1), Nat.add_comm, Nat.add_assoc, Nat.add_left_comm]

theorem enumFrom_shift_map_snd {α : Type} (fs : List α) : ∀ n : Nat,
    ((List.enumFrom n fs).map fun p => (p.1 + 1, p.2)).map Prod.snd = fs := by
  induction fs with
  | nil => intro n; rfl
  | cons f t ih =>
    intro n
    simp only [List.enumFrom, List.map_cons, List.cons.injEq]
    exact ⟨trivial, ih (n + 1)⟩

theorem clearSlots_ok (slots : List Nat) :
    ∀ (st : CursorV2State) (fa : FilterArray), st.filter_array = some fa →
      clearSlots slots st =
        ({ st with
            wrapperFilters := st.wrapperFilters ++
              slots.map fun i => "[ViewFilter(" ++ toString i ++ ",Clear)]",
            filter_array :=
              some ⟨slots.foldl (fun m i => dictPop m i) fa.filters⟩ },
         none) := by
  induction slots with
  | nil =>
    rintro ⟨cw, wf, sp, m, cn, fl⟩ fa h
    dsimp at h
    subst h
    simp [clearSlots]
  | cons i rest ih =>
    rintro ⟨cw, wf, sp, m, cn, fl⟩ fa h
    dsimp at h
    subst h
    simp only [clearSlots, clear_filter, CursorV2State.set_filter]
    rw [ih _ ⟨dictPop fa.filters i⟩ rfl]
    simp [List.append_assoc]

/-!
# Claim theorems
-/

/-- C1: `CmcFilter.filter_str2(slot)` renders exactly
`'[ViewFilter(' + slot + ', ' + f_type + ', ' + not_flag + ', ' + cmc_col +`
`', ' + condition + ')]'` when `value` is empty, and the same string with
`', ' + value` inserted before `')]'` when `value` is non-empty; and
`Csr.filter_by_field(field, condition, value, fslot)` passes to `set_filter`
exactly `'[ViewFilter(' + fslot + ', F,, ' + field + ', ' + condition + ')]'`
when `value` is empty, with `', "' + value + '"'` appended when `value` is
non-empty. -/
theorem claim_C1_filter_rendering (slot fslot : Int) (f : CmcFilter)
    (field condition value : String) :
    f.filter_str2 slot =
      (if f.value = "" then
        "[ViewFilter(" ++ toString slot ++ ", " ++ f.f_type ++ ", " ++
          f.not_flag ++ ", " ++ f.cmc_col ++ ", " ++ f.condition.str ++ ")]"
      else
        "[ViewFilter(" ++ toString slot ++ ", " ++ f.f_type ++ ", " ++
          f.not_flag ++ ", " ++ f.cmc_col ++ ", " ++ f.condition.str ++
          ", " ++ f.value ++ ")]") ∧
    filter_by_field_str field condition value fslot =
      (if value = "" then
        "[ViewFilter(" ++ toString fslot ++ ", F,, " ++ field ++ ", " ++
          condition ++ ")]"
      else
        "[ViewFilter(" ++ toString fslot ++ ", F,, " ++ field ++ ", " ++
          condition ++ ", \"" ++ value ++ "\")]") := by
  constructor
  · by_cases h : f.value = "" <;>
      simp [CmcFilter.filter_str2, h, String.append_assoc]
  · by_cases h : value = "" <;>
      simp [filter_by_field_str, h, String.append_assoc]

/-- C3, counterexample: a `com_error` whose HRESULT is not `-2147483617`
raised during `Csr.add_record`'s commit propagates to the caller as the raw
`com_error`, not as a `CmcError` — refuting "never a raw com_error". -/
theorem claim_C3_counterexample :
    add_record (.error (.comError 1 "COM failure")) =
      .error (.comError 1 "COM failure") ∧
    (PyExc.comError 1 "COM failure").isCmcError = false := by
  constructor
  · simp [add_record]
  · rfl

/-- C3, amended: every `com_error` raised by `Dispatch` during connection
establishment (`db_api.py`) is translated to `CmcError`; in `Csr.add_record`
only HRESULT `-2147483617` is translated (to
`CmcError('Record already exists')`) and every other `com_error` is re-raised
unchanged. -/
theorem claim_C3_com_error_translation (hres : Int) (text name : String) :
    (∃ msg, cmcConnectionInitDb name (.error (hres, text)) =
      .error (.cmcError msg)) ∧
    add_record (.error (.comError hres text)) =
      (if hres = -2147483617 then
        .error (.cmcError "Record already exists")
       else .error (.comError hres text)) := by
  constructor
  · refine ⟨if hres = -2147221005
        then "Db Name \"" ++ name ++ "\" does not exist - connection failed"
        else "Error connecting to " ++ name ++
          ". Is Commence Running?\n" ++ text, ?_⟩
    by_cases h : hres = -2147221005 <;> simp [cmcConnectionInitDb, h]
  · rfl

/-- C4: a `com_error` with HRESULT `-2147483617` during `Csr.add_record`'s
commit yields `CmcError('Record already exists')`, and a `com_error` with
HRESULT `-2147221005` during connection `Dispatch` yields a `CmcError` whose
message states that the database name does not exist. -/
theorem claim_C4_hresult_special_cases (name text : String) :
    add_record (.error (.comError (-2147483617) text)) =
      .error (.cmcError "Record already exists") ∧
    cmcConnectionInitDb name (.error (-2147221005, text)) =
      .error (.cmcError
        ("Db Name \"" ++ name ++ "\" does not exist - connection failed")) := by
  constructor
  · simp [add_record]
  · simp [cmcConnectionInitDb]

/-- C5, counterexample: `Csr.delete_record` catches every exception
(`except Exception: ...`) and returns Python `None` as if it succeeded, and
`get_csr` logs and swallows every exception, returning `None` — refuting "no
operation silently catches a failure and returns None". -/
theorem claim_C5_counterexample :
    delete_record (.error (.cmcError "Could not modify")) = .ok none ∧
    get_csr (.error (.valueError "boom")) = none := ⟨rfl, rfl⟩

/-- C5, amended: failures propagate for operations such as `Csr.add_record`
(non-`com_error` exceptions pass through untouched), but `Csr.delete_record`
and `get_csr` catch every exception and return `None` (silently resp. after
logging); on success each returns its body's result. -/
theorem claim_C5_exception_flow (e : PyExc) (b : Bool) (csr : CsrHandle)
    (msg : String) :
    delete_record (.error e) = .ok none ∧
    get_csr (.error e) = none ∧
    delete_record (.ok b) = .ok (some b) ∧
    get_csr (.ok csr) = some csr ∧
    add_record (.error (.cmcError msg)) = .error (.cmcError msg) :=
  ⟨rfl, rfl, rfl, rfl, rfl⟩

/-- C9: `Csr.get_record(record_name)` raises `CmcError` when the filtered
cursor yields zero or more than one record, and returns the single matching
record's dict otherwise. -/
theorem claim_C9_get_record (record_name : String) (records : List RowDict) :
    ((records.length = 0 ∨ records.length > 1) →
      ∃ msg, get_record record_name records =
        Except.error (PyExc.cmcError msg)) ∧
    (∀ r, records = [r] → get_record record_name records = .ok r) := by
  constructor
  · intro h
    match records, h with
    | [], _ => exact ⟨_, rfl⟩
    | [r], h => simp at h
    | r :: r2 :: rest, _ =>
      exact ⟨"Expected 1 record, got " ++ toString (rest.length + 1 + 1),
        by simp [get_record]⟩
  · rintro r rfl
    simp [get_record]

/-- Witness for C9 at concrete inputs: an empty record list errors, a
singleton returns its record. -/
theorem claim_C9_get_record_witness :
    (∃ msg, get_record "Widget" [] = Except.error (PyExc.cmcError msg)) ∧
    get_record "Widget" [[("Name", "Widget")]] =
      .ok [("Name", "Widget")] := by
  constructor
  · exact (claim_C9_get_record "Widget" []).1 (Or.inl rfl)
  · exact (claim_C9_get_record "Widget" [[("Name", "Widget")]]).2 _ rfl

/-- C2, counterexample, two parts.  First, `FilterArray.from_filters` with
nine filters maps slot 9, so a `FilterArray` does not map slots only in the
range 1 to 8 — nothing in `from_filters` bounds the number of filters by 8.
Second, on a cursor whose `filter_array` is `None` (the constructor default),
`clear_all_filters` does not clear slots 1 through 8: the first
`clear_filter(1)` issues slot 1's clear string and then raises
`AttributeError` at `self.filter_array.filters.pop`, so the loop stops after
slot 1 and `filter_array` is never set (it stays `None` only because it
already was). -/
theorem claim_C2_counterexample :
    ((9, ({ cmc_col := "Name" } : CmcFilter)) ∈
      (FilterArray.from_filters
        (List.replicate 9 { cmc_col := "Name" })).filters ∧
    ¬(9 : Nat) ≤ 8) ∧
    ((clear_all_filters ⟨0, [], 0, .CATEGORY, "Account", none⟩).2 =
      some (PyExc.attributeError "filters") ∧
    (clear_all_filters
        ⟨0, [], 0, .CATEGORY, "Account", none⟩).1.wrapperFilters =
      ["[ViewFilter(" ++ toString (1 : Nat) ++ ",Clear)]"]) := by
  refine ⟨⟨by decide, by decide⟩, rfl, rfl⟩

/-- C2, amended: `FilterArray.from_filters(f1, ..., fn)` assigns the filters
to consecutive slots `1, 2, ..., n` for any number `n` of filters (the 8-slot
limit of the external product is not enforced by `from_filters`); on a cursor
whose `filter_array` is set, `CursorAPI.clear_all_filters` clears exactly the
slots 1 through 8 (issuing `[ViewFilter(i,Clear)]` for `i = 1, ..., 8`) and
sets the cursor's `filter_array` to `None`; on a cursor whose `filter_array`
is `None` it instead raises `AttributeError` from `clear_filter`'s
`filter_array.filters.pop` after issuing only slot 1's clear string, leaving
`filter_array` as it was. -/
theorem claim_C2_filter_slots (fs : List CmcFilter) (st stN : CursorV2State)
    (fa : FilterArray) (h : st.filter_array = some fa)
    (hN : stN.filter_array = none) :
    (FilterArray.from_filters fs).filters.map Prod.fst =
      List.range' 1 fs.length ∧
    (FilterArray.from_filters fs).filters.map Prod.snd = fs ∧
    (clear_all_filters st).2 = none ∧
    (clear_all_filters st).1.filter_array = none ∧
    (clear_all_filters st).1.wrapperFilters =
      st.wrapperFilters ++ ([1, 2, 3, 4, 5, 6, 7, 8].map
        fun i => "[ViewFilter(" ++ toString i ++ ",Clear)]") ∧
    (clear_all_filters st).1.cursor_wrapper = st.cursor_wrapper ∧
    (clear_all_filters stN).2 = some (PyExc.attributeError "filters") ∧
    (clear_all_filters stN).1.wrapperFilters =
      stN.wrapperFilters ++
        ["[ViewFilter(" ++ toString (1 : Nat) ++ ",Clear)]"] ∧
    (clear_all_filters stN).1.filter_array = none := by
  have hmain : (clear_all_filters st).2 = none ∧
      (clear_all_filters st).1.filter_array = none ∧
      (clear_all_filters st).1.wrapperFilters =
        st.wrapperFilters ++ ([1, 2, 3, 4, 5, 6, 7, 8].map
          fun i => "[ViewFilter(" ++ toString i ++ ",Clear)]") ∧
      (clear_all_filters st).1.cursor_wrapper = st.cursor_wrapper := by
    have hc := clearSlots_ok [1, 2, 3, 4, 5, 6, 7, 8] st fa h
    simp [clear_all_filters, hc]
  obtain ⟨cw, wf, sp, m, cn, fl⟩ := stN
  dsimp at hN
  subst hN
  exact ⟨enumFrom_shift_map_fst fs 0, enumFrom_shift_map_snd fs 0,
    hmain.1, hmain.2.1, hmain.2.2.1, hmain.2.2.2, rfl, rfl, rfl⟩

/-- Witness for C2 (amended) at concrete cursor states: one carrying an
empty filter array, one with `filter_array` unset. -/
theorem claim_C2_filter_slots_witness :
    (clear_all_filters ⟨0, [], 0, .CATEGORY, "Account", some ⟨[]⟩⟩).2 =
      none ∧
    (clear_all_filters
        ⟨0, [], 0, .CATEGORY, "Account", some ⟨[]⟩⟩).1.filter_array =
      none ∧
    (clear_all_filters ⟨1, [], 0, .CATEGORY, "Person", none⟩).2 =
      some (PyExc.attributeError "filters") :=
  ⟨(claim_C2_filter_slots [] _ ⟨1, [], 0, .CATEGORY, "Person", none⟩
      ⟨[]⟩ rfl rfl).2.2.1,
   (claim_C2_filter_slots [] _ ⟨1, [], 0, .CATEGORY, "Person", none⟩
      ⟨[]⟩ rfl rfl).2.2.2.1,
   (claim_C2_filter_slots [] ⟨0, [], 0, .CATEGORY, "Account", some ⟨[]⟩⟩ _
      ⟨[]⟩ rfl rfl).2.2.2.2.2.2.1⟩

/-- C10, counterexample: with a non-empty `cursor_names`, the construction
does raise `AttributeError`, but the failing access is `self.cursors` (the
first line of `get_cursor`, reached while the `cursors` attribute is still
unassigned), not `self._cmc` as the claim states — the `_cmc` access is never
reached. -/
theorem claim_C10_counterexample :
    newConnInit "Commence.DB" ["Contact"] (fun _ => 0) (.ok 0) =
      .error (.attributeError "cursors") ∧
    PyExc.attributeError "cursors" ≠ PyExc.attributeError "_cmc" := by
  constructor
  · rfl
  · decide

/-- C10, amended: for every non-empty `cursor_names` list, constructing
`CmcConnection` in `wrapper/new.py` raises `AttributeError`: `__init__` calls
`self.get_cursor(name)` before either `self.cursors` or `self._cmc` is
assigned, so `get_cursor`'s first access, `self.cursors.get(name)`, fails;
only a construction with an empty (or omitted) `cursor_names` list can
succeed. -/
theorem claim_C10_init_cursor_names (db : String) (names : List String)
    (env : String → Nat) (dispatch : Except (Int × String) Nat) :
    (names ≠ [] →
      newConnInit db names env dispatch =
        .error (.attributeError "cursors")) ∧
    (∀ h, newConnInit db [] env (.ok h) =
      .ok { db_name := db, cursors := some [], cmc := some h }) := by
  constructor
  · intro hne
    match names, hne with
    | n :: rest, _ => rfl
  · intro h
    rfl

/-- Witness for C10 (amended): two concrete cursor names fail with
`AttributeError`, the empty list succeeds. -/
theorem claim_C10_init_cursor_names_witness :
    newConnInit "Commence.DB" ["Contact", "Account"] (fun _ => 7) (.ok 3) =
      .error (.attributeError "cursors") ∧
    newConnInit "Commence.DB" [] (fun _ => 7) (.ok 3) =
      .ok { db_name := "Commence.DB", cursors := some [], cmc := some 3 } :=
  ⟨(claim_C10_init_cursor_names "Commence.DB" ["Contact", "Account"]
      (fun _ => 7) (.ok 3)).1 (by simp),
   (claim_C10_init_cursor_names "Commence.DB" []
      (fun _ => 7) (.ok 3)).2 3⟩

theorem foldl_set_filter (strs : List String) :
    ∀ st : CursorV2State,
      strs.foldl CursorV2State.set_filter st =
        { st with wrapperFilters := st.wrapperFilters ++ strs } := by
  induction strs with
  | nil => rintro ⟨cw, wf, sp, m, cn, fl⟩; simp
  | cons s rest ih =>
    intro st
    rw [List.foldl_cons, ih]
    simp [CursorV2State.set_filter]

theorem temporary_filter_some (fa0 : FilterArray)
    (body : CursorV2State → CursorV2State × Option PyExc)
    (st : CursorV2State) :
    temporary_filter (some fa0) body st =
      ({ (body { st with
            filter_array := some fa0,
            wrapperFilters := st.wrapperFilters ++ fa0.filter_strs }).1 with
          filter_array := st.filter_array },
       (body { st with
          filter_array := some fa0,
          wrapperFilters := st.wrapperFilters ++ fa0.filter_strs }).2) := by
  simp only [temporary_filter, filter_by_array]
  rw [foldl_set_filter]

/-- C6: `CursorAPI.temporary_filter(fil_array)` applies `fil_array` via
`filter_by_array` for the duration of the block and, on exit — whether the
block completed or raised — restores `filter_array` to the value held on
entry, leaving the other `CursorAPI` attributes (`cursor_wrapper`, `mode`,
`csrname`) unchanged, provided the block itself leaves them unchanged. -/
theorem claim_C6_temporary_filter (fil : Option FilterArray)
    (body : CursorV2State → CursorV2State × Option PyExc)
    (st : CursorV2State)
    (hbody : ∀ s, (body s).1.cursor_wrapper = s.cursor_wrapper ∧
      (body s).1.mode = s.mode ∧ (body s).1.csrname = s.csrname) :
    (temporary_filter fil body st).1.filter_array = st.filter_array ∧
    (temporary_filter fil body st).1.cursor_wrapper = st.cursor_wrapper ∧
    (temporary_filter fil body st).1.mode = st.mode ∧
    (temporary_filter fil body st).1.csrname = st.csrname ∧
    (∀ fa, fil = some fa →
      ∃ stMid, filter_by_array { st with filter_array := fil } = .ok stMid ∧
        stMid.filter_array = some fa ∧
        stMid.wrapperFilters = st.wrapperFilters ++ fa.filter_strs) := by
  cases fil with
  | none =>
    exact ⟨rfl, rfl, rfl, rfl, fun fa hfa => by simp at hfa⟩
  | some fa0 =>
    rw [temporary_filter_some]
    have hb := hbody { st with
      filter_array := some fa0,
      wrapperFilters := st.wrapperFilters ++ fa0.filter_strs }
    refine ⟨rfl, hb.1, hb.2.1, hb.2.2, ?_⟩
    rintro fa hfa
    injection hfa with hfa
    subst hfa
    refine ⟨{ st with
        filter_array := some fa0,
        wrapperFilters := st.wrapperFilters ++ fa0.filter_strs },
      ?_, rfl, rfl⟩
    simp only [filter_by_array]
    rw [foldl_set_filter]

/-- Witness for C6 at a concrete filter array, cursor state and block. -/
theorem claim_C6_temporary_filter_witness :
    (temporary_filter (some ⟨[]⟩) (fun s => (s, none))
        ⟨0, [], 0, .CATEGORY, "Contact", none⟩).1.filter_array =
      (⟨0, [], 0, .CATEGORY, "Contact", none⟩ :
        CursorV2State).filter_array ∧
    (temporary_filter (some ⟨[]⟩) (fun s => (s, none))
        ⟨0, [], 0, .CATEGORY, "Contact", none⟩).1.csrname =
      (⟨0, [], 0, .CATEGORY, "Contact", none⟩ : CursorV2State).csrname :=
  ⟨(claim_C6_temporary_filter (some ⟨[]⟩) (fun s => (s, none)) _
      (fun _ => ⟨rfl, rfl, rfl⟩)).1,
   (claim_C6_temporary_filter (some ⟨[]⟩) (fun s => (s, none)) _
      (fun _ => ⟨rfl, rfl, rfl⟩)).2.2.2.1⟩

/-- C8: `_read_rows` yields the row dictionaries of the query row set
(queried with `pagination.limit` at the post-seek, post-filter cursor state)
and then exactly one final `MoreAvailable` with
`n_more = row_count - pagination.end` when the cursor's `row_count` exceeds
`pagination.end`; when `row_count` does not exceed `pagination.end` no
`MoreAvailable` is yielded. -/
theorem claim_C8_read_rows (rowCountOf : CursorV2State → Nat)
    (queryRows : CursorV2State → Option Nat → List RowDict)
    (filter_array : Option FilterArray) (p : Pagination)
    (st : CursorV2State) :
    (read_rows rowCountOf queryRows filter_array p st).1 =
      (queryRows (read_rows_midstate filter_array p st) p.limit).map
          ReadItem.row ++
        (if (p.end_ : Int) <
            (rowCountOf (read_rows_midstate filter_array p st) : Int) then
          [ReadItem.more
            ⟨(rowCountOf (read_rows_midstate filter_array p st) : Int) -
              (p.end_ : Int)⟩]
        else []) ∧
    ((read_rows rowCountOf queryRows filter_array p st).1.filter
        ReadItem.isMore) =
      (if (p.end_ : Int) <
          (rowCountOf (read_rows_midstate filter_array p st) : Int) then
        [ReadItem.more
          ⟨(rowCountOf (read_rows_midstate filter_array p st) : Int) -
            (p.end_ : Int)⟩]
      else []) := by
  have hmain : (read_rows rowCountOf queryRows filter_array p st).1 =
      (queryRows (read_rows_midstate filter_array p st) p.limit).map
          ReadItem.row ++
        (if (p.end_ : Int) <
            (rowCountOf (read_rows_midstate filter_array p st) : Int) then
          [ReadItem.more
            ⟨(rowCountOf (read_rows_midstate filter_array p st) : Int) -
              (p.end_ : Int)⟩]
        else []) := by
    simp only [read_rows, gt_iff_lt, sub_pos]
  refine ⟨hmain, ?_⟩
  rw [hmain, List.filter_append]
  have hrows : ∀ l : List RowDict,
      (l.map ReadItem.row).filter ReadItem.isMore = [] := by
    intro l
    induction l with
    | nil => rfl
    | cons r t ih => simp [ReadItem.isMore, ih]
  rw [hrows]
  by_cases hcond : (p.end_ : Int) <
      (rowCountOf (read_rows_midstate filter_array p st) : Int) <;>
    simp [hcond, ReadItem.isMore]

theorem dbInv_initial : DbInv DbApiState.initial := by
  refine ⟨?_, rfl, ?_, ?_, ?_, ?_⟩ <;> simp [DbApiState.initial]

theorem dbInv_step (s : DbApiState) (name : String) (h : DbInv s) :
    DbInv (cmcConnection s name).2 := by
  obtain ⟨h1, h2, h3, h4, h5, h6⟩ := h
  rcases hg : dictGet s.connections name with _ | obj
  · have hname : name ∉ s.connections.map Prod.fst :=
      (dictGet_eq_none_iff _ _).mp hg
    have hfresh : s.nextObj ∉ s.initialized :=
      fun hmem => absurd (h6 _ hmem) (lt_irrefl _)
    simp only [cmcConnection, hg]
    rw [if_neg hfresh]
    refine ⟨?_, ?_, ?_, ?_, ?_, ?_⟩
    · rintro ⟨pn, po⟩ hp
      rcases List.mem_append.mp hp with hp | hp
      · exact Nat.lt_trans (h1 _ hp) (Nat.lt_succ_self _)
      · simp at hp
        simp [hp.2, Nat.lt_succ_self]
    · simp [h2]
    · simp only [List.map_append, List.map_cons, List.map_nil]
      rw [List.nodup_append]
      exact ⟨h3, List.nodup_singleton _,
        by simpa [List.disjoint_singleton] using hname⟩
    · simp only [List.map_append, List.map_cons, List.map_nil]
      rw [List.nodup_append]
      refine ⟨h4, List.nodup_singleton _, ?_⟩
      intro o ho hmem
      simp at hmem
      subst hmem
      rcases List.mem_map.mp ho with ⟨p, hp, hpo⟩
      exact absurd (hpo ▸ h1 _ hp) (lt_irrefl _)
    · rintro ⟨pn, po⟩ hp
      rcases List.mem_append.mp hp with hp | hp
      · exact List.mem_cons_of_mem _ (h5 _ hp)
      · simp at hp
        simp [hp.2]
    · intro o ho
      rcases List.mem_cons.mp ho with ho | ho
      · simp [ho, Nat.lt_succ_self]
      · exact Nat.lt_trans (h6 _ ho) (Nat.lt_succ_self _)
  · have hinit : obj ∈ s.initialized := h5 _ (dictGet_mem _ _ _ hg)
    simp only [cmcConnection, hg]
    rw [if_pos hinit]
    exact ⟨h1, h2, h3, h4, h5, h6⟩

theorem dbInv_foldl (names : List String) :
    ∀ s, DbInv s →
      DbInv (names.foldl (fun s n => (cmcConnection s n).2) s) := by
  induction names with
  | nil => intro s h; exact h
  | cons n rest ih => intro s h; exact ih _ (dbInv_step s n h)

theorem dbInv_run (names : List String) : DbInv (runCmcConnection names) :=
  dbInv_foldl names _ dbInv_initial

theorem cmcConnection_idem (s : DbApiState) (name : String) (h : DbInv s) :
    cmcConnection (cmcConnection s name).2 name = cmcConnection s name := by
  obtain ⟨h1, h2, h3, h4, h5, h6⟩ := h
  rcases hg : dictGet s.connections name with _ | obj
  · have hfresh : s.nextObj ∉ s.initialized :=
      fun hmem => absurd (h6 _ hmem) (lt_irrefl _)
    have hfirst : cmcConnection s name =
        (s.nextObj,
         { s with
            connections := s.connections ++ [(name, s.nextObj)],
            nextObj := s.nextObj + 1,
            initialized := s.nextObj :: s.initialized,
            dispatched := s.dispatched ++ [name] }) := by
      simp only [cmcConnection, hg]
      rw [if_neg hfresh]
    rw [hfirst]
    have hl : dictGet (s.connections ++ [(name, s.nextObj)]) name =
        some s.nextObj := dictGet_append_single _ _ _ hg
    simp only [cmcConnection, hl]
    rw [if_pos (List.mem_cons_self _ _)]
  · have hinit : obj ∈ s.initialized := h5 _ (dictGet_mem _ _ _ hg)
    have hfirst : cmcConnection s name = (obj, s) := by
      simp only [cmcConnection, hg]
      rw [if_pos hinit]
    rw [hfirst, hfirst]

theorem apiInv_initial : ApiInv CmcApiState.initial := by
  refine ⟨?_, ?_, ?_⟩ <;> simp [CmcApiState.initial]

theorem apiInv_step (s : CmcApiState) (name : String)
    (d : Except (Int × String) Nat) (h : ApiInv s) :
    ApiInv (cmcAPI s name d).2 := by
  obtain ⟨h1, h3, h4⟩ := h
  rcases hg : dictGet s.connections name with _ | conn
  · have hname : name ∉ s.connections.map Prod.fst :=
      (dictGet_eq_none_iff _ _).mp hg
    rcases d with ⟨hres, text⟩ | hobj
    · simp only [cmcAPI, hg]
      exact ⟨h1, h3, h4⟩
    · simp only [cmcAPI, hg]
      refine ⟨?_, ?_, ?_⟩
      · rintro ⟨pn, po⟩ hp
        rcases List.mem_append.mp hp with hp | hp
        · exact Nat.lt_trans (h1 _ hp) (Nat.lt_succ_self _)
        · simp at hp
          simp [hp.2, Nat.lt_succ_self]
      · simp only [List.map_append, List.map_cons, List.map_nil]
        rw [List.nodup_append]
        exact ⟨h3, List.nodup_singleton _,
          by simpa [List.disjoint_singleton] using hname⟩
      · simp only [List.map_append, List.map_cons, List.map_nil]
        rw [List.nodup_append]
        refine ⟨h4, List.nodup_singleton _, ?_⟩
        intro o ho hmem
        simp at hmem
        subst hmem
        rcases List.mem_map.mp ho with ⟨p, hp, hpo⟩
        exact absurd (hpo ▸ h1 _ hp) (lt_irrefl _)
  · simp only [cmcAPI, hg]
    exact ⟨h1, h3, h4⟩

theorem apiInv_foldl (ops : List (String × Except (Int × String) Nat)) :
    ∀ s, ApiInv s → ApiInv (ops.foldl (fun s p => (cmcAPI s p.1 p.2).2) s) := by
  induction ops with
  | nil => intro s h; exact h
  | cons p rest ih => intro s h; exact ih _ (apiInv_step s p.1 p.2 h)

theorem apiInv_run (ops : List (String × Except (Int × String) Nat)) :
    ApiInv (runCmcAPI ops) :=
  apiInv_foldl ops _ apiInv_initial

theorem cmcAPI_ok_idem (s : CmcApiState) (name : String)
    (d d' : Except (Int × String) Nat) (o : Nat) (s1 : CmcApiState)
    (h : cmcAPI s name d = (.ok o, s1)) :
    cmcAPI s1 name d' = (.ok o, s1) := by
  rcases hg : dictGet s.connections name with _ | conn
  · rcases d with ⟨hres, text⟩ | hobj
    · simp only [cmcAPI, hg, Prod.mk.injEq] at h
      exact absurd h.1 (by simp)
    · simp only [cmcAPI, hg, Prod.mk.injEq] at h
      obtain ⟨hA, hB⟩ := h
      injection hA with hA
      subst hA
      subst hB
      have hl : dictGet (s.connections ++ [(name, s.nextObj)]) name =
          some s.nextObj := dictGet_append_single _ _ _ hg
      simp [cmcAPI, hl]
  · simp only [cmcAPI, hg, Prod.mk.injEq] at h
    obtain ⟨hA, hB⟩ := h
    injection hA with hA
    subst hA
    subst hB
    simp [cmcAPI, hg]

theorem cmcAPI_error_state (s : CmcApiState) (name : String) (hres : Int)
    (text : String) (hg : dictGet s.connections name = none) :
    (cmcAPI s name (.error (hres, text))).2.connections = s.connections ∧
    (cmcAPI s name (.error (hres, text))).2.dispatched =
      s.dispatched ++ [name] ∧
    ∀ o, (cmcAPI s name (.error (hres, text))).1 ≠ .ok o := by
  refine ⟨?_, ?_, ?_⟩
  · simp [cmcAPI, hg]
  · simp [cmcAPI, hg]
  · intro o h
    simp [cmcAPI, hg] at h

/-- C7, counterexample: in `wrapper/new.py` a failing `Dispatch` propagates
out of `CmcAPI.__new__` before the cache assignment, so nothing is cached
and a retried `CmcAPI(name)` calls `Dispatch` again for the same name — two
construction attempts for `"BadDB"` whose `Dispatch` raises produce two
`Dispatch` calls for `"BadDB"`, refuting "the COM Dispatch call is made at
most once per name". -/
theorem claim_C7_counterexample :
    (runCmcAPI [("BadDB", .error (-2147221005, "err")),
                ("BadDB", .error (-2147221005, "err"))]).dispatched =
      ["BadDB", "BadDB"] ∧
    ¬((runCmcAPI [("BadDB", .error (-2147221005, "err")),
                  ("BadDB", .error (-2147221005, "err"))]).dispatched.count
        "BadDB" ≤ 1) := by
  refine ⟨rfl, by decide⟩

/-- C7, amended: for `db_api.py`'s `CmcConnection` and `Cmc` (they share the
`connections` class attribute), construction is idempotent per database name
at every reachable process state — a second construction returns the
identical cached object, leaves the state unchanged, and `Dispatch` is called
at most once per name (the object is cached and `_initialized` set before
`Dispatch`) — and distinct names are cached as distinct objects.  For
`wrapper/new.py`'s `CmcAPI`, a construction that returned an object caches
it, and any repeat construction with that name returns the identical cached
object with no further `Dispatch`; but an uncached construction whose
`Dispatch` fails caches nothing while still recording a `Dispatch` call, so a
retried `CmcAPI(name)` re-dispatches the same name; distinct names are cached
as distinct objects. -/
theorem claim_C7_connection_cache (ops : List String)
    (ops2 : List (String × Except (Int × String) Nat))
    (name n1 n2 : String) (o1 o2 c1 c2 o : Nat)
    (d d' : Except (Int × String) Nat) (s1 : CmcApiState)
    (hres : Int) (text : String) :
    (cmcConnection (cmcConnection (runCmcConnection ops) name).2 name =
      cmcConnection (runCmcConnection ops) name) ∧
    ((runCmcConnection ops).dispatched.count name ≤ 1) ∧
    ((n1, o1) ∈ (runCmcConnection ops).connections →
      (n2, o2) ∈ (runCmcConnection ops).connections → n1 ≠ n2 → o1 ≠ o2) ∧
    (cmcAPI (runCmcAPI ops2) name d = (.ok o, s1) →
      cmcAPI s1 name d' = (.ok o, s1)) ∧
    (dictGet (runCmcAPI ops2).connections name = none →
      (cmcAPI (runCmcAPI ops2) name (.error (hres, text))).2.connections =
        (runCmcAPI ops2).connections ∧
      (cmcAPI (runCmcAPI ops2) name (.error (hres, text))).2.dispatched =
        (runCmcAPI ops2).dispatched ++ [name] ∧
      ∀ obj, (cmcAPI (runCmcAPI ops2) name (.error (hres, text))).1 ≠
        .ok obj) ∧
    ((n1, c1) ∈ (runCmcAPI ops2).connections →
      (n2, c2) ∈ (runCmcAPI ops2).connections → n1 ≠ n2 → c1 ≠ c2) := by
  have hinv := dbInv_run ops
  have hinv2 := apiInv_run ops2
  refine ⟨cmcConnection_idem _ _ hinv, ?_, ?_,
    fun h => cmcAPI_ok_idem _ _ _ d' _ _ h,
    fun hg => cmcAPI_error_state _ _ hres text hg, ?_⟩
  · rw [hinv.2.1]
    exact List.nodup_iff_count_le_one.mp hinv.2.2.1 name
  · intro hm1 hm2 hne heq
    have hpq := mem_snd_nodup_inj _ hinv.2.2.2.1 (n1, o1) (n2, o2) hm1 hm2 heq
    exact hne (congrArg Prod.fst hpq)
  · intro hm1 hm2 hne heq
    have hpq := mem_snd_nodup_inj _ hinv2.2.2 (n1, c1) (n2, c2) hm1 hm2 heq
    exact hne (congrArg Prod.fst hpq)

/-- Witness for C7 (amended) at concrete construction sequences: a cached hit
after a successful construction, a failing-`Dispatch` retry recording a
second `Dispatch`, and distinct cached objects for distinct names. -/
theorem claim_C7_connection_cache_witness :
    (runCmcConnection ["SalesDB", "OtherDB"]).dispatched.count "SalesDB" ≤
      1 ∧
    cmcAPI (runCmcAPI [("SalesDB", Except.ok 11), ("OtherDB", Except.ok 12)])
        "SalesDB" (Except.ok 99) =
      (Except.ok 0,
       runCmcAPI [("SalesDB", Except.ok 11), ("OtherDB", Except.ok 12)]) ∧
    (cmcAPI (runCmcAPI [("SalesDB", Except.ok 11), ("OtherDB", Except.ok 12)])
        "NewDB" (.error (-2147221005, "err"))).2.dispatched =
      (runCmcAPI [("SalesDB", Except.ok 11),
        ("OtherDB", Except.ok 12)]).dispatched ++ ["NewDB"] ∧
    (0 : Nat) ≠ 1 := by
  have h := claim_C7_connection_cache ["SalesDB", "OtherDB"]
    [("SalesDB", Except.ok 11), ("OtherDB", Except.ok 12)]
    "SalesDB" "SalesDB" "OtherDB" 0 1 0 1 0 (Except.ok 99) (Except.ok 99)
    (runCmcAPI [("SalesDB", Except.ok 11), ("OtherDB", Except.ok 12)])
    (-2147221005) "err"
  have h2 := claim_C7_connection_cache ["SalesDB", "OtherDB"]
    [("SalesDB", Except.ok 11), ("OtherDB", Except.ok 12)]
    "NewDB" "SalesDB" "OtherDB" 0 1 0 1 0 (Except.ok 99) (Except.ok 99)
    (runCmcAPI [("SalesDB", Except.ok 11), ("OtherDB", Except.ok 12)])
    (-2147221005) "err"
  exact ⟨h.2.1, h.2.2.2.1 rfl, (h2.2.2.2.2.1 (by decide)).2.1,
    h.2.2.1 (by decide) (by decide) (by decide)⟩

end PyCommence
